import Mathlib

/-!
Shallow embedding of the accessibility script of the recipe website
(src/script.js) and proofs about its preference toggles, page-load
restoration, announcement channel, image alt backfill and resize debounce.
-/

namespace RecipeA11y

/-- JavaScript string coercion of a boolean, as performed by
localStorage.setItem when handed the boolean expression !isPressed
(script.js lines 103 and 124). -/
def boolToStr (b : Bool) : String := if b then "true" else "false"

/-- The page state touched by the toggle controllers and restoration code:
the two document-root marker classes, the js-focus-visible class added by
initAccessibilityFeatures, the aria-pressed attribute of the two controls
(getAttribute returns null when the attribute is absent, embedded as none),
the two localStorage keys highContrast and largeText (getItem returns null
when absent, embedded as none), and the log of messages passed to
announceToScreenReader. -/
structure AccessState where
  hcClass : Bool
  ltClass : Bool
  jsFocusVisible : Bool
  hcPressed : Option String
  fsPressed : Option String
  storeHC : Option String
  storeLT : Option String
  announcements : List String
deriving DecidableEq

/-- toggleHighContrast (script.js lines 88-104): reads the pressed state as
getAttribute aria-pressed strictly equal to the string true; when pressed it
removes the high-contrast class, sets aria-pressed to false and announces the
off message, otherwise it adds the class, sets aria-pressed to true and
announces the on message; finally it stores the negated boolean, coerced to a
string, under the key highContrast. -/
def toggleHighContrast (s : AccessState) : AccessState :=
  let isPressed : Bool := decide (s.hcPressed = some "true")
  let s1 :=
    if isPressed then
      { s with hcClass := false, hcPressed := some "false",
               announcements := s.announcements ++ ["High contrast mode turned off"] }
    else
      { s with hcClass := true, hcPressed := some "true",
               announcements := s.announcements ++ ["High contrast mode turned on"] }
  { s1 with storeHC := some (boolToStr (!isPressed)) }

/-- toggleFontSize (script.js lines 109-125): identical structure to
toggleHighContrast, acting on the large-text class, the font-size control and
the key largeText. -/
def toggleFontSize (s : AccessState) : AccessState :=
  let isPressed : Bool := decide (s.fsPressed = some "true")
  let s1 :=
    if isPressed then
      { s with ltClass := false, fsPressed := some "false",
               announcements := s.announcements ++ ["Large text mode turned off"] }
    else
      { s with ltClass := true, fsPressed := some "true",
               announcements := s.announcements ++ ["Large text mode turned on"] }
  { s1 with storeLT := some (boolToStr (!isPressed)) }

/-- initAccessibilityFeatures (script.js lines 130-159): when the stored
value under highContrast is exactly the string true, adds the high-contrast
class and sets aria-pressed to true on the control; same for largeText and
the large-text class; then adds the js-focus-visible class. The skip-link
listener registration and the empty focus-trap stub change no state modelled
here. -/
def initAccessibilityFeatures (s : AccessState) : AccessState :=
  let s1 := if s.storeHC = some "true" then
      { s with hcClass := true, hcPressed := some "true" } else s
  let s2 := if s1.storeLT = some "true" then
      { s1 with ltClass := true, fsPressed := some "true" } else s1
  { s2 with jsFocusVisible := true }

/-- Modelled from the spec: the HTML document is not part of the source tree,
so the DOM state at page load, before restoration runs, is taken from the
spec (section 4.3 fixes the initial state of each toggle machine to OFF, with
the state restored from the store): no marker classes on the document root
and both controls unpressed. The contents of the two store keys are the
parameters. -/
def freshDom (hc lt : Option String) : AccessState :=
  { hcClass := false, ltClass := false, jsFocusVisible := false,
    hcPressed := some "false", fsPressed := some "false",
    storeHC := hc, storeLT := lt, announcements := [] }

/-- Agreement invariant for the high-contrast preference: marker class,
aria-pressed indicator and stored value all mean ON, or all mean OFF (a
stored value means ON exactly when it is the string true). -/
def hcAgree (s : AccessState) : Prop :=
  (s.hcClass = true ∧ s.hcPressed = some "true" ∧ s.storeHC = some "true") ∨
  (s.hcClass = false ∧ s.hcPressed ≠ some "true" ∧ s.storeHC ≠ some "true")

/-- Agreement invariant for the large-text preference. -/
def ltAgree (s : AccessState) : Prop :=
  (s.ltClass = true ∧ s.fsPressed = some "true" ∧ s.storeLT = some "true") ∨
  (s.ltClass = false ∧ s.fsPressed ≠ some "true" ∧ s.storeLT ≠ some "true")

/-- The three observable components of the high-contrast preference named by
the involution claim: marker class, indicator attribute, stored value. -/
def hcTriple (s : AccessState) : Bool × Option String × Option String :=
  (s.hcClass, s.hcPressed, s.storeHC)

/-- The three observable components of the large-text preference. -/
def ltTriple (s : AccessState) : Bool × Option String × Option String :=
  (s.ltClass, s.fsPressed, s.storeLT)

/-- A state on which the involution claim is tested: the page freshly loaded
with both store keys absent. -/
def ex2 : AccessState := freshDom none none

/-- C1: at the end of either toggle operation, and at the end of page-load
restoration from any store contents, the marker class, the aria-pressed
indicator and the stored value of each preference agree: all ON, or all OFF. -/
theorem toggle_and_init_agree (s : AccessState) (hc lt : Option String) :
    hcAgree (toggleHighContrast s) ∧ ltAgree (toggleFontSize s) ∧
    hcAgree (initAccessibilityFeatures (freshDom hc lt)) ∧
    ltAgree (initAccessibilityFeatures (freshDom hc lt)) := by
  refine ⟨?_, ?_, ?_, ?_⟩
  · by_cases h : s.hcPressed = some "true" <;>
      simp [toggleHighContrast, hcAgree, boolToStr, h]
  · by_cases h : s.fsPressed = some "true" <;>
      simp [toggleFontSize, ltAgree, boolToStr, h]
  · by_cases h1 : hc = some "true" <;> by_cases h2 : lt = some "true" <;>
      simp [initAccessibilityFeatures, freshDom, hcAgree, h1, h2]
  · by_cases h1 : hc = some "true" <;> by_cases h2 : lt = some "true" <;>
      simp [initAccessibilityFeatures, freshDom, ltAgree, h1, h2]

/-- C2 counterexample: on the concrete state reached by loading the page with
both store keys absent, toggling high contrast twice does not return the
persisted value to its original state; the store key moves from absent to the
string false, so the triple of marker, indicator and stored value differs. -/
theorem double_toggle_not_involution_cex :
    hcTriple (toggleHighContrast (toggleHighContrast ex2)) ≠ hcTriple ex2 := by
  decide

/-- C2 (amended): on every starting state whose marker class, aria-pressed
indicator and persisted value agree in canonical form, meaning the indicator
is the string true or the string false, the marker is present exactly when
the indicator is true, and the persisted value equals the indicator string,
applying a toggle twice returns that toggle to its original marker, indicator
and persisted value. -/
theorem double_toggle_involution_canonical (s : AccessState) (b c : Bool)
    (hb1 : s.hcClass = b) (hb2 : s.hcPressed = some (boolToStr b))
    (hb3 : s.storeHC = some (boolToStr b))
    (hc1 : s.ltClass = c) (hc2 : s.fsPressed = some (boolToStr c))
    (hc3 : s.storeLT = some (boolToStr c)) :
    hcTriple (toggleHighContrast (toggleHighContrast s)) = hcTriple s ∧
    ltTriple (toggleFontSize (toggleFontSize s)) = ltTriple s := by
  constructor
  · cases b <;>
      simp [toggleHighContrast, hcTriple, boolToStr, hb1, hb2, hb3]
  · cases c <;>
      simp [toggleFontSize, ltTriple, boolToStr, hc1, hc2, hc3]

/-- A canonical OFF-OFF state used to witness the amended involution. -/
def exCanon : AccessState :=
  { hcClass := false, ltClass := false, jsFocusVisible := false,
    hcPressed := some "false", fsPressed := some "false",
    storeHC := some "false", storeLT := some "false", announcements := [] }

/-- Witness for the amended C2 at a concrete canonical state. -/
theorem double_toggle_involution_canonical_witness :
    hcTriple (toggleHighContrast (toggleHighContrast exCanon)) = hcTriple exCanon ∧
    ltTriple (toggleFontSize (toggleFontSize exCanon)) = ltTriple exCanon :=
  double_toggle_involution_canonical exCanon false false rfl rfl rfl rfl rfl rfl

/-- C3: restoration from any store contents on a freshly loaded page puts a
toggle in the ON state, marker class present and aria-pressed equal to true,
exactly when its stored value is exactly the string true; any other string or
an absent value leaves it OFF, with the marker absent and aria-pressed equal
to false. -/
theorem init_restores_exactly (hc lt : Option String) :
    (initAccessibilityFeatures (freshDom hc lt)).hcClass = decide (hc = some "true") ∧
    (initAccessibilityFeatures (freshDom hc lt)).hcPressed
      = some (boolToStr (decide (hc = some "true"))) ∧
    (initAccessibilityFeatures (freshDom hc lt)).ltClass = decide (lt = some "true") ∧
    (initAccessibilityFeatures (freshDom hc lt)).fsPressed
      = some (boolToStr (decide (lt = some "true"))) := by
  by_cases h1 : hc = some "true" <;> by_cases h2 : lt = some "true" <;>
    simp [initAccessibilityFeatures, freshDom, boolToStr, h1, h2]

/-- C4: activating the high-contrast control in the OFF state (aria-pressed
not equal to the string true) adds the marker class, sets aria-pressed to
true, stores the string true under highContrast, and announces exactly the
high-contrast-on message. -/
theorem toggleHC_from_off (s : AccessState) (h : s.hcPressed ≠ some "true") :
    (toggleHighContrast s).hcClass = true ∧
    (toggleHighContrast s).hcPressed = some "true" ∧
    (toggleHighContrast s).storeHC = some "true" ∧
    (toggleHighContrast s).announcements
      = s.announcements ++ ["High contrast mode turned on"] := by
  simp [toggleHighContrast, boolToStr, h]

/-- Witness for C4 on the freshly loaded page with both store keys absent. -/
theorem toggleHC_from_off_witness :
    (toggleHighContrast (freshDom none none)).hcClass = true ∧
    (toggleHighContrast (freshDom none none)).hcPressed = some "true" ∧
    (toggleHighContrast (freshDom none none)).storeHC = some "true" ∧
    (toggleHighContrast (freshDom none none)).announcements
      = (freshDom none none).announcements ++ ["High contrast mode turned on"] :=
  toggleHC_from_off (freshDom none none) (by decide)

/-- The aria-live region together with its pending clear timers: the text of
the region, and the list of absolute times at which a scheduled clear, set by
setTimeout in announceToScreenReader, will fire. -/
structure Channel where
  text : String
  timers : List Nat
deriving DecidableEq

/-- announceToScreenReader (script.js lines 73-79), called at absolute time
now: sets the region text to the message immediately and schedules a clear
100 milliseconds later; no already-pending clear is cancelled, the new timer
is simply added. -/
def announceToScreenReader (now : Nat) (c : Channel) (message : String) : Channel :=
  { text := message, timers := c.timers ++ [now + 100] }

/-- Advancing the clock to time t: every pending clear whose deadline has
arrived fires, each one setting the region text to the empty string; the
fired timers are removed from the pending list. -/
def fireDue (t : Nat) (c : Channel) : Channel :=
  if c.timers.any (fun x => decide (x ≤ t)) then
    { text := "", timers := c.timers.filter (fun x => decide (t < x)) }
  else c

/-- C5: after announcing a message at time now, the region text equals the
message immediately, and once the fixed 100 millisecond delay has elapsed,
with no intervening announce call, the region text is the empty string. -/
theorem announce_sets_then_clears (now t : Nat) (c : Channel) (msg : String)
    (h : now + 100 ≤ t) :
    (announceToScreenReader now c msg).text = msg ∧
    (fireDue t (announceToScreenReader now c msg)).text = "" := by
  constructor
  · rfl
  · simp [fireDue, announceToScreenReader, h]

/-- Witness for C5 on an initially empty channel at concrete times. -/
theorem announce_sets_then_clears_witness :
    (announceToScreenReader 0 ⟨"", []⟩ "X").text = "X" ∧
    (fireDue 100 (announceToScreenReader 0 ⟨"", []⟩ "X")).text = "" :=
  announce_sets_then_clears 0 100 ⟨"", []⟩ "X" (by decide)

/-- C6: when announce is called a second time, at time t2, before the clear
scheduled by an earlier call at time t1 has fired, the earlier pending clear
is not cancelled: the timer list keeps both deadlines, the region carries the
newer message, and at the original deadline t1 + 100 the region is cleared to
the empty string although the newer message has been up for less than its own
100 millisecond delay. -/
theorem pending_clear_not_cancelled (t1 t2 : Nat) (m1 m2 : String) (c : Channel)
    (h1 : t1 < t2) (h2 : t2 < t1 + 100) :
    (announceToScreenReader t2 (announceToScreenReader t1 c m1) m2).timers
      = c.timers ++ [t1 + 100, t2 + 100] ∧
    (announceToScreenReader t2 (announceToScreenReader t1 c m1) m2).text = m2 ∧
    (fireDue (t1 + 100)
        (announceToScreenReader t2 (announceToScreenReader t1 c m1) m2)).text = "" ∧
    t1 + 100 < t2 + 100 := by
  refine ⟨by simp [announceToScreenReader], rfl, ?_, by omega⟩
  simp [fireDue, announceToScreenReader]

/-- Witness for C6: a second announce 50 milliseconds after the first, on an
initially empty channel. -/
theorem pending_clear_not_cancelled_witness :
    (announceToScreenReader 50 (announceToScreenReader 0 ⟨"", []⟩ "A") "B").timers
      = ([] : List Nat) ++ [0 + 100, 50 + 100] ∧
    (announceToScreenReader 50 (announceToScreenReader 0 ⟨"", []⟩ "A") "B").text = "B" ∧
    (fireDue (0 + 100)
        (announceToScreenReader 50 (announceToScreenReader 0 ⟨"", []⟩ "A") "B")).text = "" ∧
    0 + 100 < 50 + 100 :=
  pending_clear_not_cancelled 0 50 "A" "B" ⟨"", []⟩ (by decide) (by decide)

/-- An image element, carrying only its alt attribute (absent embedded as
none, present with any string value, including the empty string, as some). -/
structure Img where
  alt : Option String
deriving DecidableEq

/-- The DOMContentLoaded image backfill (script.js lines 40-42): every image
matched by the selector img without an alt attribute gets the alt attribute
set to the string Decorative image; images that already carry the attribute
are not selected and stay untouched. -/
def backfillAlt (imgs : List Img) : List Img :=
  imgs.map (fun img =>
    if img.alt = none then { img with alt := some "Decorative image" } else img)

/-- C7: after the load-time backfill, the image at any position either gained
the default decorative description, when it had no alt attribute, or is left
exactly as it was, when it already had one, even an empty one. -/
theorem backfill_alt_spec (imgs : List Img) (img : Img) (i : Nat)
    (h : imgs[i]? = some img) :
    (backfillAlt imgs)[i]?
      = some (if img.alt = none then ⟨some "Decorative image"⟩ else img) := by
  simp [backfillAlt, List.getElem?_map, h]

/-- Witness for C7 on a two-image document: the first image lacks alt, the
second has an empty alt. -/
theorem backfill_alt_spec_witness :
    (backfillAlt [⟨none⟩, ⟨some ""⟩])[0]?
      = some (if (⟨none⟩ : Img).alt = none then ⟨some "Decorative image"⟩
              else ⟨none⟩) :=
  backfill_alt_spec [⟨none⟩, ⟨some ""⟩] ⟨none⟩ 0 (by decide)

/-- C9: toggleHighContrast leaves the entire large-text state unchanged, its
marker class, the aria-pressed attribute of the font-size control and the
largeText store key, and toggleFontSize symmetrically leaves the entire
high-contrast state unchanged; the only state the two share is the
announcement channel, which holds no preference state. -/
theorem toggles_independent (s : AccessState) :
    (toggleHighContrast s).ltClass = s.ltClass ∧
    (toggleHighContrast s).fsPressed = s.fsPressed ∧
    (toggleHighContrast s).storeLT = s.storeLT ∧
    (toggleFontSize s).hcClass = s.hcClass ∧
    (toggleFontSize s).hcPressed = s.hcPressed ∧
    (toggleFontSize s).storeHC = s.storeHC := by
  by_cases h1 : s.hcPressed = some "true" <;>
    by_cases h2 : s.fsPressed = some "true" <;>
      simp [toggleHighContrast, toggleFontSize, h1, h2]

/-- State of the closure returned by debounce (script.js lines 172-182): the
deadline of the currently pending setTimeout, if any, and the list of times
at which the wrapped function has actually run. -/
structure DebounceState where
  pending : Option Nat
  fired : List Nat
deriving DecidableEq

/-- One event arriving at absolute time t, processed against the debounced
closure: first, if the pending timer has a deadline at or before t it has
already fired by now, running the wrapped function at its deadline; then the
call clears any remaining timeout and schedules a new one t plus wait. -/
def stepEvent (wait : Nat) (s : DebounceState) (t : Nat) : DebounceState :=
  let s1 : DebounceState := match s.pending with
    | some ft => if ft ≤ t then { pending := none, fired := s.fired ++ [ft] } else s
    | none => s
  { s1 with pending := some (t + wait) }

/-- Letting the page idle after the last event: the remaining pending timer,
if any, fires at its deadline. -/
def flushPending (s : DebounceState) : DebounceState :=
  match s.pending with
  | some ft => { pending := none, fired := s.fired ++ [ft] }
  | none => s

/-- The wait passed to debounce by the resize listener registration
(script.js lines 185-187). -/
def resizeWait : Nat := 250

/-- The complete run of the debounced resize handler over a list of resize
event times, starting with no pending timer and no past invocations, and
idling after the last event. -/
def runResize (events : List Nat) : DebounceState :=
  flushPending (events.foldl (stepEvent resizeWait) ⟨none, []⟩)

/-- A burst of event times: the list is nondecreasing and each event follows
the previous one after strictly less than wait milliseconds. -/
def burstB (wait : Nat) : List Nat → Bool
  | a :: b :: rest => decide (a ≤ b) && decide (b < a + wait) && burstB wait (b :: rest)
  | _ => true

/-- Helper for the debounce claim: across a burst whose consecutive events
are each less than wait apart, every event cancels the previous pending
timer before it can fire, leaving a single pending timer at the last event
plus wait and no invocation of the wrapped function. -/
theorem stepEvent_burst (wait : Nat) : ∀ (rest : List Nat) (t : Nat) (acc : List Nat),
    burstB wait (t :: rest) = true →
    rest.foldl (stepEvent wait) ⟨some (t + wait), acc⟩
      = ⟨some (rest.getLastD t + wait), acc⟩
  | [], t, acc, _ => by simp [List.getLastD]
  | u :: us, t, acc, h => by
    simp only [burstB, Bool.and_eq_true, decide_eq_true_eq] at h
    obtain ⟨⟨h1, h2⟩, h3⟩ := h
    have hnf : ¬ (t + wait ≤ u) := by omega
    have hst : stepEvent wait ⟨some (t + wait), acc⟩ u = ⟨some (u + wait), acc⟩ := by
      simp [stepEvent, hnf]
    rw [List.foldl_cons, hst, stepEvent_burst wait us u acc h3, List.getLastD_cons]

/-- C8: for any nonempty burst of resize events in which each event follows
the previous one after less than the 250 millisecond debounce wait, the
attached resize behavior runs exactly once, at the time of the last event of
the burst plus 250 milliseconds. -/
theorem debounced_resize_once (events : List Nat) (hne : events ≠ [])
    (hburst : burstB resizeWait events = true) :
    (runResize events).fired = [events.getLastD 0 + resizeWait] := by
  cases events with
  | nil => exact absurd rfl hne
  | cons t rest =>
    have h0 : stepEvent resizeWait ⟨none, []⟩ t = ⟨some (t + resizeWait), []⟩ := by
      simp [stepEvent]
    unfold runResize
    rw [List.foldl_cons, h0, stepEvent_burst resizeWait rest t [] hburst,
      List.getLastD_cons]
    simp [flushPending]

/-- Witness for C8: ten resize events 100 milliseconds apart trigger exactly
one invocation, 250 milliseconds after the last event. -/
theorem debounced_resize_once_witness :
    (runResize [0, 100, 200, 300, 400, 500, 600, 700, 800, 900]).fired
      = [List.getLastD [0, 100, 200, 300, 400, 500, 600, 700, 800, 900] 0
          + resizeWait] :=
  debounced_resize_once [0, 100, 200, 300, 400, 500, 600, 700, 800, 900]
    (by decide) (by decide)

/-- C10: a toggle that turns a preference off overwrites its store key with
the literal string false; neither toggle nor restoration ever removes a store
key, both toggles always leave the key present, restoration never writes the
store at all, and restoration maps a stored false to the OFF state for both
preferences. -/
theorem off_writes_false_never_removed (s u : AccessState) (hc lt : Option String)
    (h1 : s.hcPressed = some "true") (h2 : s.fsPressed = some "true") :
    (toggleHighContrast s).storeHC = some "false" ∧
    (toggleFontSize s).storeLT = some "false" ∧
    (toggleHighContrast u).storeHC ≠ none ∧
    (toggleFontSize u).storeLT ≠ none ∧
    (initAccessibilityFeatures u).storeHC = u.storeHC ∧
    (initAccessibilityFeatures u).storeLT = u.storeLT ∧
    (initAccessibilityFeatures (freshDom (some "false") lt)).hcClass = false ∧
    (initAccessibilityFeatures (freshDom (some "false") lt)).hcPressed ≠ some "true" ∧
    (initAccessibilityFeatures (freshDom hc (some "false"))).ltClass = false ∧
    (initAccessibilityFeatures (freshDom hc (some "false"))).fsPressed ≠ some "true" := by
  refine ⟨by simp [toggleHighContrast, boolToStr, h1],
    by simp [toggleFontSize, boolToStr, h2], ?_, ?_, ?_, ?_, ?_, ?_, ?_, ?_⟩
  · by_cases h : u.hcPressed = some "true" <;> simp [toggleHighContrast, boolToStr, h]
  · by_cases h : u.fsPressed = some "true" <;> simp [toggleFontSize, boolToStr, h]
  · by_cases ha : u.storeHC = some "true" <;> by_cases hb : u.storeLT = some "true" <;>
      simp [initAccessibilityFeatures, ha, hb]
  · by_cases ha : u.storeHC = some "true" <;> by_cases hb : u.storeLT = some "true" <;>
      simp [initAccessibilityFeatures, ha, hb]
  · by_cases h : lt = some "true" <;> simp [initAccessibilityFeatures, freshDom, h]
  · by_cases h : lt = some "true" <;> simp [initAccessibilityFeatures, freshDom, h]
  · by_cases h : hc = some "true" <;> simp [initAccessibilityFeatures, freshDom, h]
  · by_cases h : hc = some "true" <;> simp [initAccessibilityFeatures, freshDom, h]

/-- A state with both preferences ON in canonical form, used to witness the
OFF transition of C10. -/
def exOn : AccessState :=
  { hcClass := true, ltClass := true, jsFocusVisible := false,
    hcPressed := some "true", fsPressed := some "true",
    storeHC := some "true", storeLT := some "true", announcements := [] }

/-- Witness for C10 at concrete states: both toggles start ON and turn OFF. -/
theorem off_writes_false_never_removed_witness :
    (toggleHighContrast exOn).storeHC = some "false" ∧
    (toggleFontSize exOn).storeLT = some "false" ∧
    (toggleHighContrast (freshDom none none)).storeHC ≠ none ∧
    (toggleFontSize (freshDom none none)).storeLT ≠ none ∧
    (initAccessibilityFeatures (freshDom none none)).storeHC = (freshDom none none).storeHC ∧
    (initAccessibilityFeatures (freshDom none none)).storeLT = (freshDom none none).storeLT ∧
    (initAccessibilityFeatures (freshDom (some "false") none)).hcClass = false ∧
    (initAccessibilityFeatures (freshDom (some "false") none)).hcPressed ≠ some "true" ∧
    (initAccessibilityFeatures (freshDom none (some "false"))).ltClass = false ∧
    (initAccessibilityFeatures (freshDom none (some "false"))).fsPressed ≠ some "true" :=
  off_writes_false_never_removed exOn (freshDom none none) none none rfl rfl

end RecipeA11y
